import Mathlib

/-!
Verification of the fetch-and-upsert reconciliation flow of the
`Advanced_shell` Django application (files `models.py`, `services.py`,
`views.py`).

The Python code is shallowly embedded:

* JSON documents (the values handled by `response.json()` and stored in
  the `raw_data` JSONField) become the inductive type `JsonVal`.
* Python exceptions that the code can raise or catch become the type
  `Exn`; a computation that may raise is `Except Exn α`.
* The two database tables (`Pokemon`, `APIRequest`) become lists of
  records inside `DBState`; the `APIRequest` list is kept most-recent
  first, matching the model ordering `[-request_timestamp]`.
* The outbound HTTP call `self.session.get(url, timeout=30)` is
  modelled by an oracle `ProviderOutcome` carried in `World`; the field
  `providerCalls` of `DBState` counts how many times the provider was
  contacted.  Python float arithmetic (`height * 0.1`) is modelled by
  exact rational arithmetic.
-/

namespace PokemonApp

/-- A JSON value, as returned by `response.json()` and stored in the
`raw_data` JSONField.  Numbers are modelled as integers (the payloads
handled by this application are integral). -/
inductive JsonVal : Type where
  | null : JsonVal
  | bool (b : Bool) : JsonVal
  | num (n : Int) : JsonVal
  | str (s : String) : JsonVal
  | arr (xs : List JsonVal) : JsonVal
  | obj (fields : List (String × JsonVal)) : JsonVal

/-- The Python exceptions relevant to `services.py`:
`requests.exceptions.Timeout`, `requests.exceptions.ConnectionError`,
`json.JSONDecodeError`, `KeyError`, `TypeError`, the `ValueError` of a
failed int() field coercion, the database `IntegrityError` of the
unique-name constraint, and any other exception. -/
inductive Exn : Type where
  | timeout : Exn
  | connError : Exn
  | jsonDecode : Exn
  | keyError (k : String) : Exn
  | typeError : Exn
  | valueError (msg : String) : Exn
  | integrityError : Exn
  | other (msg : String) : Exn
deriving DecidableEq

/-- Rendering str(e) for the exceptions above, as interpolated into
the unexpected-error message.  Python renders a KeyError for key k
as the quoted "k". -/
def Exn.pyStr : Exn → String
  | .timeout => "timeout"
  | .connError => "connection error"
  | .jsonDecode => "Expecting value"
  | .keyError k => "\x27" ++ k ++ "\x27"
  | .typeError => "type error"
  | .valueError msg => msg
  | .integrityError => "UNIQUE constraint failed: pokemon_api_pokemon.name"
  | .other msg => msg

/-- Python truthiness of a JSON value (`if self.raw_data and ...`):
`None`, `False`, `0`, `""`, `[]` and `{}` are falsy. -/
def jsonTruthy : JsonVal → Bool
  | .null => false
  | .bool b => b
  | .num n => n != 0
  | .str s => !s.isEmpty
  | .arr xs => !xs.isEmpty
  | .obj fields => !fields.isEmpty

/-- Python subscription `j[k]` with a string key: dictionary lookup,
raising `KeyError` when the key is absent and `TypeError` when `j` is
not a dictionary. -/
def getItem (j : JsonVal) (k : String) : Except Exn JsonVal :=
  match j with
  | .obj fields =>
    match fields.find? (fun p => p.1 = k) with
    | some p => .ok p.2
    | none => .error (.keyError k)
  | _ => .error .typeError

/-- Python `dict.get(k)`: `some` value or `none`, never raising.  Only
reached on dictionaries in the modelled code paths. -/
def dictGet (j : JsonVal) (k : String) : Option JsonVal :=
  match j with
  | .obj fields => (fields.find? (fun p => p.1 = k)).map (fun p => p.2)
  | _ => none

/-- Equality of a JSON value with a Python string (used by `k in list`
membership tests: only a JSON string can equal a Python string). -/
def jsonEqStr (x : JsonVal) (k : String) : Bool :=
  match x with
  | .str s => s = k
  | _ => false

/-- Python `str.lower()`: lowercase every character (basic-latin
lowercasing, as in the payloads this application handles).  Defined by
structural recursion over the character list so that it computes. -/
def pyLower (s : String) : String := String.mk (s.data.map Char.toLower)

/-- Python `str.strip()`: remove leading and trailing whitespace. -/
def pyStrip (s : String) : String :=
  String.mk (((s.data.dropWhile Char.isWhitespace).reverse.dropWhile
    Char.isWhitespace).reverse)

/-- The name normalization `pokemon_name.lower().strip()` performed by
`fetch_pokemon`. -/
def normalizeName (raw : String) : String := pyStrip (pyLower raw)

/-- Whether the string `k` occurs as a contiguous substring of `s`
(Python `k in s`). -/
def strContainsSub (s k : String) : Bool :=
  k.isEmpty ||
    (List.range (s.data.length + 1 - k.data.length)).any
      (fun i => (s.data.drop i).take k.data.length = k.data)

/-- Python membership `k in j` for a string `k`: key lookup on a
dictionary, element equality on a list, substring on a string, and
`TypeError` on any non-iterable value. -/
def pyContains (j : JsonVal) (k : String) : Except Exn Bool :=
  match j with
  | .obj fields => .ok (fields.any (fun p => p.1 = k))
  | .arr xs => .ok (xs.any (fun x => jsonEqStr x k))
  | .str s => .ok (strContainsSub s k)
  | _ => .error .typeError

/-- Python iteration `for x in j`: the elements of a list, the keys of
a dictionary, the one-character strings of a string, and `TypeError`
otherwise. -/
def pyIter (j : JsonVal) : Except Exn (List JsonVal) :=
  match j with
  | .arr xs => .ok xs
  | .obj fields => .ok (fields.map (fun p => JsonVal.str p.1))
  | .str s => .ok (s.toList.map (fun c => JsonVal.str (String.mk [c])))
  | _ => .error .typeError

/-- A row of the `Pokemon` table (`models.py`).  The schema declares
`pokemon_id` and `name` unique; timestamps are not modelled. -/
structure PokemonRow : Type where
  pokemon_id : Int
  name : String
  height : Int
  weight : Int
  base_experience : Option Int
  raw_data : JsonVal

/-- A row of the `APIRequest` table (`models.py`).  The timestamp is
not modelled; the containing list is kept most-recent first. -/
structure APIRequestRow : Type where
  pokemon_name : String
  success : Bool
  error_message : String
  http_status_code : Option Nat
  response_data : Option JsonVal

/-- Round-half-to-even of the ratio n / d, for positive d. -/
def roundQuotHalfEven (n d : Nat) : Nat :=
  let q := n / d
  let r := n % d
  if 2 * r < d then q
  else if d < 2 * r then q + 1
  else if q % 2 = 0 then q else q + 1

/-- Fueled scaling loop computing the unique e with 2 ^ e ≤ a / b
< 2 ^ (e + 1) for positive a and b; the fuel of `floorLog2` covers the
whole binary64 exponent range. -/
def floorLog2Aux : Nat → Nat → Nat → Int → Int
  | 0, _, _, acc => acc
  | fuel + 1, a, b, acc =>
    if a < b then floorLog2Aux fuel (2 * a) b (acc - 1)
    else if 2 * b ≤ a then floorLog2Aux fuel a (2 * b) (acc + 1)
    else acc

/-- The floor of the base-2 logarithm of a / b, for positive a and b. -/
def floorLog2 (a b : Nat) : Int := floorLog2Aux 1200 a b 0

/-- IEEE-754 binary64 rounding (round to nearest, ties to even) of the
rational n / d, as a mantissa-exponent pair (m, k) denoting m * 2 ^ k
with 2 ^ 52 ≤ |m| < 2 ^ 53 for nonzero values.  Normal range only,
which covers every value this application computes. -/
def round64 (n : Int) (d : Nat) : Int × Int :=
  if n = 0 then (0, 0)
  else
    let a := n.natAbs
    let e := floorLog2 a d
    let k := e - 52
    let m := if 0 ≤ k then roundQuotHalfEven a (d * 2 ^ k.toNat)
             else roundQuotHalfEven (a * 2 ^ (-k).toNat) d
    (if n < 0 then -(m : Int) else (m : Int), k)

/-- The exact rational value of a binary64 mantissa-exponent pair. -/
def f64Val (p : Int × Int) : Rat := (p.1 : Rat) * (2 : Rat) ^ p.2

/-- The binary64 double denoted by the Python literal 0.1: the nearest
double to 1/10. -/
def float0Point1 : Int × Int := round64 1 10

/-- Exact conversion of a (small) integer to binary64, as performed by
Python before an int-times-float multiplication. -/
def intToF64 (n : Int) : Int × Int := round64 n 1

/-- IEEE-754 binary64 multiplication: the exact product of the two
operands, rounded to nearest-even. -/
def f64Mul (x y : Int × Int) : Int × Int :=
  let m := x.1 * y.1
  let k := x.2 + y.2
  if 0 ≤ k then round64 (m * 2 ^ k.toNat) 1 else round64 m (2 ^ (-k).toNat)

namespace Pokemon

/-- Model of `Pokemon.height_in_meters`: the Python float expression
`self.height * 0.1` computed in IEEE-754 binary64 (the integer height
converts exactly, the product with the double 0.1 is rounded to
nearest-even), returned as its exact rational value. -/
def height_in_meters (p : PokemonRow) : Rat :=
  f64Val (f64Mul (intToF64 p.height) float0Point1)

/-- Model of `Pokemon.weight_in_kg`: the Python float expression
`self.weight * 0.1` computed in IEEE-754 binary64, returned as its
exact rational value. -/
def weight_in_kg (p : PokemonRow) : Rat :=
  f64Val (f64Mul (intToF64 p.weight) float0Point1)

/-- Model of `Pokemon.types` as a function of `raw_data`:
the comprehension mapping each entry of the "types" list to its
"type"."name" value when
`raw_data` is truthy and contains the key, `[]` otherwise.  A raised
exception is an `Except.error`. -/
def types (raw_data : JsonVal) : Except Exn (List JsonVal) :=
  if jsonTruthy raw_data then
    match pyContains raw_data "types" with
    | .error e => .error e
    | .ok false => .ok []
    | .ok true =>
      match getItem raw_data "types" with
      | .error e => .error e
      | .ok v =>
        match pyIter v with
        | .error e => .error e
        | .ok items =>
          items.mapM (fun type_data =>
            match getItem type_data "type" with
            | .error e => .error e
            | .ok t => getItem t "name")
  else .ok []

/-- One step of the `abilities` list comprehension: evaluate
the "is_hidden" entry, filter on its (negated, when `wantHidden` is
`false`) truthiness, then evaluate the "ability"."name" entry. -/
def abilityStep (wantHidden : Bool) (acc : List JsonVal) (ability : JsonVal) :
    Except Exn (List JsonVal) :=
  match getItem ability "is_hidden" with
  | .error e => .error e
  | .ok hid =>
    if jsonTruthy hid = wantHidden then
      match getItem ability "ability" with
      | .error e => .error e
      | .ok a =>
        match getItem a "name" with
        | .error e => .error e
        | .ok nm => .ok (acc ++ [nm])
    else .ok acc

/-- Common body of `Pokemon.abilities` and `Pokemon.hidden_abilities`:
the comprehension over the "abilities" list keeping entries whose
`is_hidden` truthiness equals `wantHidden`. -/
def abilitiesWith (wantHidden : Bool) (raw_data : JsonVal) :
    Except Exn (List JsonVal) :=
  if jsonTruthy raw_data then
    match pyContains raw_data "abilities" with
    | .error e => .error e
    | .ok false => .ok []
    | .ok true =>
      match getItem raw_data "abilities" with
      | .error e => .error e
      | .ok v =>
        match pyIter v with
        | .error e => .error e
        | .ok items => items.foldlM (abilityStep wantHidden) []
  else .ok []

/-- Model of `Pokemon.abilities`: the non-hidden ability names. -/
def abilities (raw_data : JsonVal) : Except Exn (List JsonVal) :=
  abilitiesWith false raw_data

/-- Model of `Pokemon.hidden_abilities`: the hidden ability names. -/
def hidden_abilities (raw_data : JsonVal) : Except Exn (List JsonVal) :=
  abilitiesWith true raw_data

/-- Whether a JSON value may be a Python `dict` key (lists and dicts
are unhashable). -/
def hashableKey : JsonVal → Bool
  | .arr _ => false
  | .obj _ => false
  | _ => true

/-- Python equality between two hashable JSON scalars, used for dict
keys.  (The Python cross-type equality `True == 1` is not modelled;
the keys produced here are strings.) -/
def keyEq (a b : JsonVal) : Bool :=
  match a, b with
  | .null, .null => true
  | .bool x, .bool y => x = y
  | .num x, .num y => x = y
  | .str x, .str y => x = y
  | _, _ => false

/-- Insertion into a Python dict modelled as an association list in
insertion order: an existing key keeps its position and gets the new
value, a new key is appended.  An unhashable key raises `TypeError`. -/
def dictInsert (m : List (JsonVal × JsonVal)) (k v : JsonVal) :
    Except Exn (List (JsonVal × JsonVal)) :=
  if hashableKey k then
    if m.any (fun p => keyEq p.1 k) then
      .ok (m.map (fun p => if keyEq p.1 k then (p.1, v) else p))
    else .ok (m ++ [(k, v)])
  else .error .typeError

/-- One step of the `base_stats` dict comprehension: evaluate
the "stat"."name" key and the "base_stat" value and insert the pair. -/
def baseStatStep (m : List (JsonVal × JsonVal)) (stat : JsonVal) :
    Except Exn (List (JsonVal × JsonVal)) :=
  match getItem stat "stat" with
  | .error e => .error e
  | .ok s =>
    match getItem s "name" with
    | .error e => .error e
    | .ok k =>
      match getItem stat "base_stat" with
      | .error e => .error e
      | .ok v => dictInsert m k v

/-- Model of `Pokemon.base_stats`:
the dict comprehension mapping each entry of the "stats" list from
its "stat"."name" key to its "base_stat" value when `raw_data` is
truthy and contains the key, the empty mapping otherwise. -/
def base_stats (raw_data : JsonVal) : Except Exn (List (JsonVal × JsonVal)) :=
  if jsonTruthy raw_data then
    match pyContains raw_data "stats" with
    | .error e => .error e
    | .ok false => .ok []
    | .ok true =>
      match getItem raw_data "stats" with
      | .error e => .error e
      | .ok v =>
        match pyIter v with
        | .error e => .error e
        | .ok items => items.foldlM baseStatStep []
  else .ok []

end Pokemon

/-- The mutable database and side-effect state threaded through the
service: the two tables, the names of files written below
`media/pokemon_data/`, and the number of outbound provider calls
issued so far. -/
structure DBState : Type where
  pokemons : List PokemonRow
  requests : List APIRequestRow
  files : List String
  providerCalls : Nat

/-- The `defaults=` dictionary passed to
`Pokemon.objects.update_or_create` in `services.py`. -/
structure PokemonDefaults : Type where
  name : String
  height : Int
  weight : Int
  base_experience : Option Int
  raw_data : JsonVal

/-- The row produced by applying the defaults under a given
`pokemon_id`. -/
def applyDefaults (id : Int) (d : PokemonDefaults) : PokemonRow :=
  { pokemon_id := id, name := d.name, height := d.height, weight := d.weight,
    base_experience := d.base_experience, raw_data := d.raw_data }

mutual

/-- Python repr() of a JSON value: quotes around strings, True, False
and None spelled the Python way (string-escape subtleties are not
modelled). -/
def pyRepr : JsonVal → String
  | .null => "None"
  | .bool b => if b then "True" else "False"
  | .num n => toString n
  | .str s => "\x27" ++ s ++ "\x27"
  | .arr xs => "[" ++ pyReprList xs ++ "]"
  | .obj fs => "\x7b" ++ pyReprFields fs ++ "\x7d"

/-- Comma-separated repr of the elements of a list. -/
def pyReprList : List JsonVal → String
  | [] => ""
  | [x] => pyRepr x
  | x :: y :: xs => pyRepr x ++ ", " ++ pyReprList (y :: xs)

/-- Comma-separated repr of the entries of a dictionary. -/
def pyReprFields : List (String × JsonVal) → String
  | [] => ""
  | [p] => "\x27" ++ p.1 ++ "\x27: " ++ pyRepr p.2
  | p :: q :: ps =>
    "\x27" ++ p.1 ++ "\x27: " ++ pyRepr p.2 ++ ", " ++ pyReprFields (q :: ps)

end

/-- Python str() of a JSON value: the value itself for strings, the
repr rendering otherwise — used by the f-string building the file name
and by the CharField save-time coercion. -/
def pyStrOfJson (v : JsonVal) : String :=
  match v with
  | .str s => s
  | _ => pyRepr v

/-- Parse a decimal integer the way Python int() accepts a string:
optional surrounding whitespace, an optional sign, then one or more
digits (the underscore digit grouping of Python is not modelled). -/
def strToInt? (s : String) : Option Int :=
  let t := (pyStrip s).data
  let parts : Bool × List Char :=
    match t with
    | c :: rest =>
      if c = Char.ofNat 45 then (true, rest)
      else if c = Char.ofNat 43 then (false, rest)
      else (false, t)
    | [] => (false, t)
  if parts.2.isEmpty || !parts.2.all Char.isDigit then none
  else
    let v : Nat := parts.2.foldl (fun n c => 10 * n + (c.toNat - 48)) 0
    some (if parts.1 then -(v : Int) else (v : Int))

/-- Django IntegerField save-time coercion int(value), as applied by
get_prep_value to `pokemon_id`, `height`, `weight` and
`base_experience`: integers pass through, booleans coerce
(int(True) = 1), decimal strings parse — a non-numeric string raises
ValueError — and None or a container raises TypeError. -/
def asInt (j : JsonVal) : Except Exn Int :=
  match j with
  | .num n => .ok n
  | .bool b => .ok (if b then 1 else 0)
  | .str s =>
    match strToInt? s with
    | some n => .ok n
    | none =>
      .error (.valueError ("invalid literal for int() with base 10: " ++ s))
  | _ => .error .typeError

/-- Django CharField save-time coercion str(value) for `name`: total —
strings pass through unchanged, every other value is stringified. -/
def asStr (j : JsonVal) : String := pyStrOfJson j

/-- Whether a JSON value is null (a null `base_experience` is stored
as NULL rather than coerced). -/
def isNullJson : JsonVal → Bool
  | .null => true
  | _ => false

/-- The field values reaching the upsert write: first the Python
argument evaluation of the `update_or_create` call (the subscriptions
for "id", "name", "height" and "weight" in order — raising KeyError or
TypeError — then the non-raising lookup of "base_experience"), then
the save-time Django field coercions in model-field order (int() for
the integer fields, where ValueError surfaces, and str() for the name;
a missing or null base_experience stays NULL).  Both phases run inside
the try block, in this order, as in the program. -/
def extractDefaults (data : JsonVal) : Except Exn (Int × PokemonDefaults) :=
  match getItem data "id" with
  | .error e => .error e
  | .ok rawId =>
  match getItem data "name" with
  | .error e => .error e
  | .ok rawName =>
  match getItem data "height" with
  | .error e => .error e
  | .ok rawH =>
  match getItem data "weight" with
  | .error e => .error e
  | .ok rawW =>
  match asInt rawId with
  | .error e => .error e
  | .ok id =>
  match asInt rawH with
  | .error e => .error e
  | .ok h =>
  match asInt rawW with
  | .error e => .error e
  | .ok w =>
  match dictGet data "base_experience" with
  | none =>
    .ok (id, { name := asStr rawName, height := h, weight := w,
               base_experience := none, raw_data := data })
  | some bev =>
    if isNullJson bev then
      .ok (id, { name := asStr rawName, height := h, weight := w,
                 base_experience := none, raw_data := data })
    else
      match asInt bev with
      | .error e => .error e
      | .ok be =>
        .ok (id, { name := asStr rawName, height := h, weight := w,
                   base_experience := some be, raw_data := data })

/-- Model of `Pokemon.objects.update_or_create` keyed by `pokemon_id`:
update the row with that `pokemon_id` in place when one exists,
otherwise insert a new row; either write raises IntegrityError —
leaving the table unchanged — when the written name equals the name of
a different row (the unique constraint on `name`).  Returns the new
table, the resulting row and the `created` flag.  (The unique
constraint on `pokemon_id` guarantees at most one matching row.) -/
def update_or_create (rows : List PokemonRow) (id : Int) (d : PokemonDefaults) :
    Except Exn (List PokemonRow × PokemonRow × Bool) :=
  if rows.any (fun r => if r.pokemon_id = id then false else r.name = d.name) then
    .error .integrityError
  else if rows.any (fun r => r.pokemon_id = id) then
    .ok (rows.map (fun r => if r.pokemon_id = id then applyDefaults id d else r),
         applyDefaults id d, false)
  else
    .ok (rows ++ [applyDefaults id d], applyDefaults id d, true)

/-- Model of `PokemonAPIService._save_json_to_file` (the auxiliary byte-content
store): build the file name under `pokemon_data/` from the normalized
name and the "id" value and save it via `default_storage.save`, whose
success is the oracle `fileSaveOk`.
Every exception, including a KeyError for a missing "id", is caught
and only logged, so the function is total over the file list. -/
def save_json_to_file (data : JsonVal) (pokemon_name : String)
    (fileSaveOk : Bool) (files : List String) : List String :=
  match getItem data "id" with
  | .error _ => files
  | .ok idv =>
    if fileSaveOk then
      files ++ ["pokemon_data/" ++ pokemon_name ++ "_" ++ pyStrOfJson idv ++ ".json"]
    else files

/-- Model of `PokemonAPIService._log_error`: append an `APIRequest` row with
`success=False`, the message, and no status code or response data. -/
def log_error (s : DBState) (pokemon_name error_message : String) : DBState :=
  { s with requests :=
      { pokemon_name := pokemon_name, success := false,
        error_message := error_message, http_status_code := none,
        response_data := none } :: s.requests }

/-- The possible outcomes of `self.session.get(url, timeout=30)`: an
HTTP response with a status code and a body (`none` when the body is
not valid JSON, so that `response.json()` raises), a timeout, a
connection error, or any other exception. -/
inductive ProviderOutcome : Type where
  | httpResponse (status : Nat) (body : Option JsonVal) : ProviderOutcome
  | timeout : ProviderOutcome
  | connError : ProviderOutcome
  | exn (msg : String) : ProviderOutcome

/-- The environment a single `fetch_pokemon` call runs against: the
behaviour of the provider and whether `default_storage.save`
succeeds. -/
structure World : Type where
  provider : ProviderOutcome
  fileSaveOk : Bool

/-- The triple returned by `fetch_pokemon`:
`(Pokemon instance or None, success boolean, error message)`. -/
structure FetchResult : Type where
  pokemon : Option PokemonRow
  success : Bool
  error : Option String

/-- The `try` block of `fetch_pokemon`, for the already-normalized
name: issue the provider call, write the `APIRequest` row, and on
HTTP 200 save the auxiliary file and upsert the `Pokemon` row.  The
state is threaded through so that writes performed before a raised
exception persist (as they do in the Python code); the `Except` value
carries the exception to the handlers. -/
def fetchBody (w : World) (name : String) (s0 : DBState) :
    DBState × Except Exn FetchResult :=
  let s1 := { s0 with providerCalls := s0.providerCalls + 1 }
  match w.provider with
  | .timeout => (s1, .error .timeout)
  | .connError => (s1, .error .connError)
  | .exn msg => (s1, .error (.other msg))
  | .httpResponse status body =>
    if status = 200 then
      match body with
      | none => (s1, .error .jsonDecode)
      | some data =>
        let s2 := { s1 with requests :=
          { pokemon_name := name, success := true, error_message := "",
            http_status_code := some status, response_data := some data }
            :: s1.requests }
        let s3 := { s2 with files := save_json_to_file data name w.fileSaveOk s2.files }
        match extractDefaults data with
        | .error e => (s3, .error e)
        | .ok (id, d) =>
          match update_or_create s3.pokemons id d with
          | .error e => (s3, .error e)
          | .ok u =>
            ({ s3 with pokemons := u.1 },
             .ok { pokemon := some u.2.1, success := true, error := none })
    else
      let s2 := { s1 with requests :=
        { pokemon_name := name, success := false,
          error_message := "HTTP " ++ toString status,
          http_status_code := some status, response_data := none }
          :: s1.requests }
      if status = 404 then
        (s2, .ok { pokemon := none, success := false,
                   error := some ("Pokemon \x27" ++ name ++ "\x27 not found") })
      else
        (s2, .ok { pokemon := none, success := false,
                   error := some ("API request failed with status " ++ toString status) })

/-- Model of `PokemonAPIService.fetch_pokemon`: normalize the name with
`.lower().strip()`, run the `try` block, and convert each caught
exception class (`Timeout`, `ConnectionError`, the catch-all
`Exception`) into a returned triple after logging via `_log_error`. -/
def fetch_pokemon (w : World) (raw_name : String) (s : DBState) :
    DBState × FetchResult :=
  let name := normalizeName raw_name
  match fetchBody w name s with
  | (s1, .ok r) => (s1, r)
  | (s1, .error .timeout) =>
    let msg := "Request timeout for Pokemon: " ++ name
    (log_error s1 name msg, { pokemon := none, success := false, error := some msg })
  | (s1, .error .connError) =>
    let msg := "Connection error when fetching Pokemon: " ++ name
    (log_error s1 name msg, { pokemon := none, success := false, error := some msg })
  | (s1, .error e) =>
    let msg := "Unexpected error: " ++ e.pyStr
    (log_error s1 name msg, { pokemon := none, success := false, error := some msg })

/-- The response of the JSON endpoint `PokemonAPIView.get`, reduced to
what the claims observe: a success payload built from a `Pokemon` row,
or an error body with the chosen HTTP status code. -/
inductive ViewResponse : Type where
  | jsonSuccess (p : PokemonRow) : ViewResponse
  | jsonError (error : String) (status : Nat) : ViewResponse

/-- Model of `PokemonAPIView.get`: first try
`Pokemon.objects.get(name=pokemon_name.lower())`; on `DoesNotExist`
call `fetch_pokemon` and translate its triple, picking status 404 when
the error message contains `"not found"` and 500 otherwise. -/
def pokemonAPIView_get (w : World) (pokemon_name : String) (s : DBState) :
    DBState × ViewResponse :=
  match s.pokemons.find? (fun p => p.name = pyLower pokemon_name) with
  | some p => (s, .jsonSuccess p)
  | none =>
    let r := fetch_pokemon w pokemon_name s
    if r.2.success then
      match r.2.pokemon with
      | some p => (r.1, .jsonSuccess p)
      | none => (r.1, .jsonError "" 500)
    else
      let err := r.2.error.getD ""
      (r.1, .jsonError err (if strContainsSub err "not found" then 404 else 500))

/-- Model of `PokemonSearchView.form_valid`: the search form always calls
`service.fetch_pokemon(pokemon_name)` on the submitted name, with no
database lookup beforehand (flash messages and the redirect are
presentation-only and not modelled). -/
def pokemonSearchView_formValid (w : World) (pokemon_name : String) (s : DBState) :
    DBState × FetchResult :=
  fetch_pokemon w pokemon_name s

/-- The number of `Pokemon` rows carrying a given `pokemon_id`. -/
def countById (rows : List PokemonRow) (id : Int) : Nat :=
  (rows.filter (fun r => r.pokemon_id = id)).length

/-- An empty database. -/
def emptyDB : DBState :=
  { pokemons := [], requests := [], files := [], providerCalls := 0 }

/-- The provider payload of the ditto example from the spec. -/
def dittoPayload : JsonVal :=
  .obj [("id", .num 132), ("name", .str "ditto"), ("height", .num 3),
        ("weight", .num 40),
        ("abilities", .arr [.obj [("ability", .obj [("name", .str "limber")]),
                                  ("is_hidden", .bool false)]])]

/-- The upsert defaults extracted from `dittoPayload`. -/
def dittoDefaults : PokemonDefaults :=
  { name := "ditto", height := 3, weight := 40, base_experience := none,
    raw_data := dittoPayload }

/-- The `Pokemon` row produced by fetching `dittoPayload`. -/
def dittoRow : PokemonRow := applyDefaults 132 dittoDefaults

/-- A database whose Entity Cache already holds the ditto row. -/
def cachedDB : DBState :=
  { pokemons := [dittoRow], requests := [], files := [], providerCalls := 0 }

/-- A provider payload whose `name` field carries an uppercase letter. -/
def casedBody : JsonVal :=
  .obj [("id", .num 132), ("name", .str "Ditto"), ("height", .num 3),
        ("weight", .num 40)]

/-- The upsert defaults extracted from `casedBody`. -/
def casedDefaults : PokemonDefaults :=
  { name := "Ditto", height := 3, weight := 40, base_experience := none,
    raw_data := casedBody }

/-- A world whose provider answers HTTP 404. -/
def w404 : World := { provider := .httpResponse 404 none, fileSaveOk := true }

/-- A first set of upsert defaults used to exercise the upsert. -/
def defaultsA : PokemonDefaults :=
  { name := "a", height := 1, weight := 2, base_experience := none,
    raw_data := .null }

/-- A second, different set of upsert defaults. -/
def defaultsB : PokemonDefaults :=
  { name := "b", height := 3, weight := 4, base_experience := some 5,
    raw_data := .null }

/-- A row under a different `pokemon_id` already holding the name of
`defaultsB`. -/
def rowB : PokemonRow :=
  { pokemon_id := 2, name := "b", height := 9, weight := 9,
    base_experience := none, raw_data := .null }

/-! ## Helper lemmas -/

/-- The `try` block issues exactly one provider call. -/
theorem fetchBody_calls (w : World) (n : String) (s : DBState) :
    (fetchBody w n s).1.providerCalls = s.providerCalls + 1 := by
  obtain ⟨prov, fOk⟩ := w
  cases prov
  all_goals simp only [fetchBody]
  case httpResponse status body =>
    split
    · cases body with
      | none => rfl
      | some data =>
        cases h : extractDefaults data with
        | error e => simp [h]
        | ok v =>
          obtain ⟨id, d⟩ := v
          simp only [h]
          cases hu : update_or_create s.pokemons id d <;> simp [hu]
    · split <;> rfl

/-- Logging via `log_error` does not touch the provider-call counter. -/
theorem log_error_calls (s : DBState) (n m : String) :
    (log_error s n m).providerCalls = s.providerCalls := rfl

/-- The service `fetch_pokemon` issues exactly one provider call on
every input. -/
theorem fetch_pokemon_calls (w : World) (raw_name : String) (s : DBState) :
    (fetch_pokemon w raw_name s).1.providerCalls = s.providerCalls + 1 := by
  have hb := fetchBody_calls w (normalizeName raw_name) s
  simp only [fetch_pokemon]
  rcases h : fetchBody w (normalizeName raw_name) s with ⟨s1, r⟩
  rw [h] at hb
  cases r with
  | ok r => simpa using hb
  | error e => cases e <;> simpa [log_error] using hb

/-- Replacing every row matching `id` by a row that itself carries
`id` preserves the number of rows carrying `id`. -/
theorem countById_map_update (rows : List PokemonRow) (id : Int) (x : PokemonRow)
    (hx : x.pokemon_id = id) :
    countById (rows.map (fun r => if r.pokemon_id = id then x else r)) id
      = countById rows id := by
  induction rows with
  | nil => rfl
  | cons a tl ih =>
    by_cases h : a.pokemon_id = id <;>
      simp [countById, List.filter_cons, h, hx] at ih ⊢ <;> omega

/-- After replacing every row matching `id` by `x` (which carries
`id`), every row matching `id` is `x`. -/
theorem mem_map_update (rows : List PokemonRow) (id : Int) (x r : PokemonRow)
    (hr : r ∈ rows.map (fun t => if t.pokemon_id = id then x else t))
    (hid : r.pokemon_id = id) : r = x := by
  obtain ⟨a, ha, he⟩ := List.mem_map.1 hr
  by_cases h : a.pokemon_id = id
  · rw [if_pos h] at he; exact he.symm
  · rw [if_neg h] at he; rw [← he] at hid; exact absurd hid h

/-- The existence test used by the upsert agrees with a positive row
count. -/
theorem any_eq_countById_pos (rows : List PokemonRow) (id : Int) :
    rows.any (fun r => r.pokemon_id = id) = true ↔ 0 < countById rows id := by
  unfold countById
  rw [List.length_pos, Ne, List.filter_eq_nil_iff]
  push_neg
  simp [List.any_eq_true]

/-- Appending one row changes the count by one exactly when the row
matches. -/
theorem countById_append_single (rows : List PokemonRow) (x : PokemonRow) (id : Int) :
    countById (rows ++ [x]) id
      = countById rows id + (if x.pokemon_id = id then 1 else 0) := by
  simp only [countById, List.filter_append]
  split <;> simp [List.filter_cons, *]

/-- A successful upsert never grows the table by more than one row. -/
theorem update_or_create_ok_length (rows : List PokemonRow) (id : Int)
    (d : PokemonDefaults) (u : List PokemonRow × PokemonRow × Bool)
    (hu : update_or_create rows id d = .ok u) :
    u.1.length ≤ rows.length + 1 := by
  unfold update_or_create at hu
  split at hu
  · simp at hu
  · split at hu <;> simp only [Except.ok.injEq] at hu <;> subst hu <;> simp

/-- A successful upsert returns the row built from the defaults. -/
theorem update_or_create_ok_row (rows : List PokemonRow) (id : Int)
    (d : PokemonDefaults) (u : List PokemonRow × PokemonRow × Bool)
    (hu : update_or_create rows id d = .ok u) :
    u.2.1 = applyDefaults id d := by
  unfold update_or_create at hu
  split at hu
  · simp at hu
  · split at hu <;> simp only [Except.ok.injEq] at hu <;> subst hu <;> rfl

/-- Starting from a table respecting the uniqueness constraint, a
successful upsert leaves exactly one row with that `pokemon_id`. -/
theorem update_or_create_ok_count (rows : List PokemonRow) (id : Int)
    (d : PokemonDefaults) (u : List PokemonRow × PokemonRow × Bool)
    (h : countById rows id ≤ 1)
    (hu : update_or_create rows id d = .ok u) :
    countById u.1 id = 1 := by
  have hx : (applyDefaults id d).pokemon_id = id := rfl
  unfold update_or_create at hu
  split at hu
  · simp at hu
  · split at hu <;> simp only [Except.ok.injEq] at hu <;> subst hu
    · rename_i hcol ha
      show countById
        (rows.map (fun r => if r.pokemon_id = id then applyDefaults id d else r)) id = 1
      rw [countById_map_update rows id (applyDefaults id d) hx]
      have := (any_eq_countById_pos rows id).1 ha
      omega
    · rename_i hcol hna
      show countById (rows ++ [applyDefaults id d]) id = 1
      rw [countById_append_single, if_pos hx]
      have h0 : ¬ 0 < countById rows id := fun hp =>
        hna ((any_eq_countById_pos rows id).2 hp)
      omega

/-- After a successful upsert, every row carrying the upserted
`pokemon_id` is the row built from the defaults. -/
theorem update_or_create_ok_mem (rows : List PokemonRow) (id : Int)
    (d : PokemonDefaults) (u : List PokemonRow × PokemonRow × Bool)
    (hu : update_or_create rows id d = .ok u)
    (r : PokemonRow) (hr : r ∈ u.1) (hid : r.pokemon_id = id) :
    r = applyDefaults id d := by
  unfold update_or_create at hu
  split at hu
  · simp at hu
  · split at hu <;> simp only [Except.ok.injEq] at hu <;> subst hu
    · exact mem_map_update rows id (applyDefaults id d) r hr hid
    · rename_i hcol hna
      rcases List.mem_append.1 hr with hrr | hrx
      · exact absurd (List.any_eq_true.2 ⟨r, hrr, by simp [hid]⟩) hna
      · simpa using hrx

/-! ## Claim theorems -/

/-- C1: for every input name, `fetch_pokemon` never raises an
exception to its caller: every outcome — HTTP 200, HTTP 404, any other
status, timeout, connection error, or any other exception — is
converted into a returned triple, which is moreover well-tagged: a
success carries an entity and no error message, a failure carries no
entity and an error message. -/
theorem claim1_fetch_never_raises (w : World) (raw_name : String) (s : DBState) :
    ((fetch_pokemon w raw_name s).2.success = true ∧
      (fetch_pokemon w raw_name s).2.error = none ∧
      ∃ p, (fetch_pokemon w raw_name s).2.pokemon = some p) ∨
    ((fetch_pokemon w raw_name s).2.success = false ∧
      (fetch_pokemon w raw_name s).2.pokemon = none ∧
      ∃ m, (fetch_pokemon w raw_name s).2.error = some m) := by
  obtain ⟨prov, fOk⟩ := w
  unfold fetch_pokemon fetchBody
  cases prov <;> simp
  case httpResponse status body =>
    by_cases h2 : status = 200 <;> simp [h2]
    · cases body with
      | none => simp
      | some data =>
        cases he : extractDefaults data with
        | error e => cases e <;> simp [he]
        | ok v =>
          obtain ⟨id, d⟩ := v
          simp only [he]
          cases hu : update_or_create s.pokemons id d with
          | error e => cases e <;> simp [hu]
          | ok u => simp [hu]
    · by_cases h4 : status = 404 <;> simp [h4]

/-- C3: for every input name, when the provider responds with HTTP
404, `fetch_pokemon` returns a not-found outcome (no entity,
`success=false`, a descriptive message), appends an `APIRequest` row
with `success=false`, and creates or modifies no `Pokemon` row. -/
theorem claim3_http_404 (fOk : Bool) (raw_name : String) (body : Option JsonVal)
    (s : DBState) :
    fetch_pokemon { provider := .httpResponse 404 body, fileSaveOk := fOk } raw_name s =
      ({ s with providerCalls := s.providerCalls + 1,
                requests :=
                  { pokemon_name := normalizeName raw_name, success := false,
                    error_message := "HTTP 404", http_status_code := some 404,
                    response_data := none } :: s.requests },
       { pokemon := none, success := false,
         error := some ("Pokemon \x27" ++ normalizeName raw_name ++ "\x27 not found") }) :=
  rfl

/-- C8 counterexample: under the IEEE-754 binary64 arithmetic the
program performs, resolving ditto gives a `height_in_meters` one unit
in the last place above the double nearest 0.3 — it equals neither the
exact rational 3/10 nor the double denoted by the literal 0.3,
refuting the claimed `height_in_meters = 0.3`. -/
theorem claim8_counterexample :
    Pokemon.height_in_meters dittoRow ≠ 3 / 10 ∧
    Pokemon.height_in_meters dittoRow ≠ f64Val (round64 3 10) := by
  have hm : f64Mul (intToF64 dittoRow.height) float0Point1
      = (5404319552844596, -54) := by decide
  have h3 : round64 3 10 = (5404319552844595, -54) := by decide
  unfold Pokemon.height_in_meters
  rw [hm, h3]
  constructor <;> norm_num [f64Val]

/-- C8 amended: resolving ditto against a provider returning the
example payload yields an entity with `provider_id = 132`,
`height_in_meters = 0.30000000000000004` (the binary64 value
5404319552844596 / 2 ^ 54 of `3 * 0.1`, one ulp above 0.3),
`weight_in_kg` exactly 4.0, `abilities = ["limber"]` and
`hidden_abilities = []`. -/
theorem claim8_ditto_example :
    (fetch_pokemon { provider := .httpResponse 200 (some dittoPayload), fileSaveOk := true }
        "ditto" emptyDB).2.pokemon = some dittoRow ∧
    dittoRow.pokemon_id = 132 ∧
    Pokemon.height_in_meters dittoRow = 5404319552844596 / 2 ^ 54 ∧
    Pokemon.weight_in_kg dittoRow = 4 ∧
    Pokemon.abilities dittoRow.raw_data = .ok [.str "limber"] ∧
    Pokemon.hidden_abilities dittoRow.raw_data = .ok [] := by
  have hm : f64Mul (intToF64 dittoRow.height) float0Point1
      = (5404319552844596, -54) := by decide
  have hw : f64Mul (intToF64 dittoRow.weight) float0Point1
      = (4503599627370496, -50) := by decide
  refine ⟨rfl, rfl, ?_, ?_, rfl, rfl⟩
  · unfold Pokemon.height_in_meters
    rw [hm]
    norm_num [f64Val]
  · unfold Pokemon.weight_in_kg
    rw [hw]
    norm_num [f64Val]

/-- C2 counterexample: with a row of a different `pokemon_id` already
holding the name of the later defaults, the first upsert of id 7
succeeds but the second raises IntegrityError on the unique name
constraint and leaves the table unchanged — the row with id 7 keeps
the earlier values (height 1, not the later 3), refuting "holding the
values of the later upsert". -/
theorem claim2_counterexample :
    update_or_create [rowB] 7 defaultsA
      = .ok ([rowB, applyDefaults 7 defaultsA], applyDefaults 7 defaultsA, true) ∧
    update_or_create [rowB, applyDefaults 7 defaultsA] 7 defaultsB
      = .error .integrityError ∧
    (applyDefaults 7 defaultsA).height ≠ defaultsB.height :=
  ⟨rfl, rfl, by decide⟩

/-- C2 amended: starting from a table with at most one row for a
`pokemon_id` (the unique constraint of the schema), upserting that id
twice never produces a duplicate — after the first successful upsert
exactly one row carries the id, and whenever the second upsert
succeeds (raises no IntegrityError on the unique name) that single row
holds the values of the later upsert; a failed second upsert leaves
the table unchanged. -/
theorem claim2_upsert_no_duplicates (rows : List PokemonRow) (id : Int)
    (d1 d2 : PokemonDefaults) (u1 : List PokemonRow × PokemonRow × Bool)
    (h : countById rows id ≤ 1)
    (h1 : update_or_create rows id d1 = .ok u1) :
    countById u1.1 id = 1 ∧
    ∀ u2, update_or_create u1.1 id d2 = .ok u2 →
      countById u2.1 id = 1 ∧
      ∀ r ∈ u2.1, r.pokemon_id = id → r = applyDefaults id d2 := by
  have hc1 := update_or_create_ok_count rows id d1 u1 h h1
  refine ⟨hc1, fun u2 h2 => ⟨?_, fun r hr hid => ?_⟩⟩
  · exact update_or_create_ok_count u1.1 id d2 u2 (by omega) h2
  · exact update_or_create_ok_mem u1.1 id d2 u2 h2 r hr hid

/-- Witness for C2 at a concrete input: two successful upserts of id 7
into the empty table leave exactly one row with id 7. -/
theorem claim2_upsert_no_duplicates_witness :
    countById [applyDefaults 7 defaultsA] 7 = 1 :=
  (claim2_upsert_no_duplicates [] 7 defaultsA defaultsB
    ([applyDefaults 7 defaultsA], applyDefaults 7 defaultsA, true)
    (by decide) rfl).1

/-- C9: the success or failure of the auxiliary JSON file write never
affects the returned triple, the `Pokemon` table or the `APIRequest`
log — for every provider outcome the two runs differ at most in the
saved-file list. -/
theorem claim9_file_write_best_effort (prov : ProviderOutcome) (raw_name : String)
    (s : DBState) :
    (fetch_pokemon { provider := prov, fileSaveOk := true } raw_name s).2 =
      (fetch_pokemon { provider := prov, fileSaveOk := false } raw_name s).2 ∧
    (fetch_pokemon { provider := prov, fileSaveOk := true } raw_name s).1.pokemons =
      (fetch_pokemon { provider := prov, fileSaveOk := false } raw_name s).1.pokemons ∧
    (fetch_pokemon { provider := prov, fileSaveOk := true } raw_name s).1.requests =
      (fetch_pokemon { provider := prov, fileSaveOk := false } raw_name s).1.requests := by
  unfold fetch_pokemon fetchBody
  cases prov <;> simp [log_error]
  case httpResponse status body =>
    by_cases h2 : status = 200
    · simp only [h2, if_true, reduceIte]
      cases body with
      | none => simp [log_error]
      | some data =>
        cases he : extractDefaults data with
        | error e => cases e <;> simp [he, log_error]
        | ok v =>
          obtain ⟨id, d⟩ := v
          simp only [he]
          cases hu : update_or_create s.pokemons id d with
          | error e => cases e <;> simp [hu, log_error]
          | ok u => simp [hu]
    · by_cases h4 : status = 404 <;> simp [h2, h4]

/-- C10: `fetch_pokemon` performs no Entity-Cache lookup and contacts
the provider on every call, even when an entity with that name is
already cached; the cache fast-path exists only in the JSON API view
(which then makes no provider call and leaves the state untouched),
and the search-form flow contacts the provider on every submission. -/
theorem claim10_cache_only_in_view (w : World) (raw_name : String) (s : DBState)
    (p : PokemonRow)
    (hcached : s.pokemons.find? (fun q => q.name = pyLower raw_name) = some p) :
    (fetch_pokemon w raw_name s).1.providerCalls = s.providerCalls + 1 ∧
    (pokemonSearchView_formValid w raw_name s).1.providerCalls = s.providerCalls + 1 ∧
    pokemonAPIView_get w raw_name s = (s, .jsonSuccess p) := by
  refine ⟨fetch_pokemon_calls w raw_name s, fetch_pokemon_calls w raw_name s, ?_⟩
  unfold pokemonAPIView_get
  rw [hcached]

/-- Witness for C10: with the ditto row cached, the service and the
search form still contact the provider, while the JSON API view
serves the cached row without a provider call. -/
theorem claim10_cache_only_in_view_witness :
    (fetch_pokemon w404 "ditto" cachedDB).1.providerCalls = cachedDB.providerCalls + 1 ∧
    (pokemonSearchView_formValid w404 "ditto" cachedDB).1.providerCalls
      = cachedDB.providerCalls + 1 ∧
    pokemonAPIView_get w404 "ditto" cachedDB = (cachedDB, .jsonSuccess dittoRow) :=
  claim10_cache_only_in_view w404 "ditto" cachedDB dittoRow rfl

/-- C4 counterexample: the entity named `"ditto"` is cached — under
exactly the trimmed, lowercased form of the query `" ditto"` — yet the
database lookup of the JSON API view misses it and the provider is
contacted, so the lookup of the view does not operate on the trimmed,
lowercased name as the claim states. -/
theorem claim4_counterexample :
    cachedDB.pokemons.find? (fun p => p.name = normalizeName " ditto") = some dittoRow ∧
    (pokemonAPIView_get w404 " ditto" cachedDB).1.providerCalls
      = cachedDB.providerCalls + 1 :=
  ⟨rfl, rfl⟩

/-- C4 amended: the service normalizes with lowercase-then-strip
before the provider call and the request-log write, but the JSON API
database lookup of the view uses the lowercased name without
trimming: the
view hits the cache exactly when a row exists under `pyLower name`,
and otherwise contacts the provider. -/
theorem claim4_amended (w : World) (raw_name : String) (s : DBState)
    (body : Option JsonVal) (fOk : Bool) :
    ((fetch_pokemon { provider := .httpResponse 404 body, fileSaveOk := fOk }
        raw_name s).1.requests.head?).map (fun e => e.pokemon_name)
      = some (normalizeName raw_name) ∧
    (pokemonAPIView_get w raw_name s).1.providerCalls =
      (if (s.pokemons.find? (fun p => p.name = pyLower raw_name)).isSome
       then s.providerCalls else s.providerCalls + 1) := by
  constructor
  · rfl
  · unfold pokemonAPIView_get
    cases hf : s.pokemons.find? (fun p => p.name = pyLower raw_name) with
    | some p => simp
    | none =>
      simp only [Option.isSome_none, if_neg Bool.false_ne_true]
      have hc := fetch_pokemon_calls w raw_name s
      rcases hre : fetch_pokemon w raw_name s with ⟨s1, r⟩
      rw [hre] at hc
      split
      · split <;> exact hc
      · exact hc

/-- A successful field extraction pins the `name` default to str() of
the value stored in the payload under "name" — the identity on string
payloads. -/
theorem extractDefaults_name (data : JsonVal) (id : Int) (d : PokemonDefaults)
    (h : extractDefaults data = .ok (id, d)) :
    ∃ v, getItem data "name" = .ok v ∧ d.name = pyStrOfJson v := by
  unfold extractDefaults at h
  cases h0 : getItem data "id" with
  | error e => simp only [h0] at h; simp at h
  | ok rawId =>
  simp only [h0] at h
  cases h1 : getItem data "name" with
  | error e => simp only [h1] at h; simp at h
  | ok rawName =>
  simp only [h1] at h
  cases h2 : getItem data "height" with
  | error e => simp only [h2] at h; simp at h
  | ok rawH =>
  simp only [h2] at h
  cases h3 : getItem data "weight" with
  | error e => simp only [h3] at h; simp at h
  | ok rawW =>
  simp only [h3] at h
  cases h4 : asInt rawId with
  | error e => simp only [h4] at h; simp at h
  | ok idn =>
  simp only [h4] at h
  cases h5 : asInt rawH with
  | error e => simp only [h5] at h; simp at h
  | ok hn =>
  simp only [h5] at h
  cases h6 : asInt rawW with
  | error e => simp only [h6] at h; simp at h
  | ok wn =>
  simp only [h6] at h
  refine ⟨rawName, rfl, ?_⟩
  cases h7 : dictGet data "base_experience" with
  | none =>
    simp only [h7] at h
    simp at h
    rw [← h.2]
    rfl
  | some bev =>
    simp only [h7] at h
    by_cases hb : isNullJson bev = true
    · rw [if_pos hb] at h
      simp at h
      rw [← h.2]
      rfl
    · rw [if_neg hb] at h
      cases h8 : asInt bev with
      | error e => simp only [h8] at h; simp at h
      | ok ben =>
        simp only [h8] at h
        simp at h
        rw [← h.2]
        rfl

/-- C5 counterexample: a successful fetch whose provider payload names
the entity `"Ditto"` stores `"Ditto"` — not lowercase — in the
`Pokemon` row, refuting the claim that the stored name is always
lowercase with the casing of the provider surviving only inside
`raw_payload`. -/
theorem claim5_counterexample :
    (fetch_pokemon { provider := .httpResponse 200 (some casedBody), fileSaveOk := true }
        "Ditto" emptyDB).2.success = true ∧
    ((fetch_pokemon { provider := .httpResponse 200 (some casedBody), fileSaveOk := true }
        "Ditto" emptyDB).1.pokemons.map (fun p => p.name)) = ["Ditto"] ∧
    pyLower "Ditto" ≠ "Ditto" :=
  ⟨rfl, rfl, by decide⟩

/-- C5 amended: whenever the field extraction and the upsert succeed,
the stored row is exactly the upsert defaults under the payload id,
and its `name` is str() of the "name" value of the payload — the
identity for string payloads, never lowercased (only the queried name
is normalized) — so the casing of the provider reaches the `name`
column as well as `raw_payload`. -/
theorem claim5_amended (fOk : Bool) (data : JsonVal) (raw_name : String)
    (s : DBState) (id : Int) (d : PokemonDefaults)
    (u : List PokemonRow × PokemonRow × Bool)
    (h : extractDefaults data = .ok (id, d))
    (hu : update_or_create s.pokemons id d = .ok u) :
    (fetch_pokemon { provider := .httpResponse 200 (some data), fileSaveOk := fOk }
        raw_name s).2.pokemon = some (applyDefaults id d) ∧
    (∃ v, getItem data "name" = .ok v ∧ d.name = pyStrOfJson v) ∧
    (applyDefaults id d).name = d.name := by
  refine ⟨?_, extractDefaults_name data id d h, rfl⟩
  unfold fetch_pokemon fetchBody
  simp [h, hu, update_or_create_ok_row s.pokemons id d u hu]

/-- Witness for C5 amended, at the cased payload. -/
theorem claim5_amended_witness :
    (fetch_pokemon { provider := .httpResponse 200 (some casedBody), fileSaveOk := true }
        "x" emptyDB).2.pokemon = some (applyDefaults 132 casedDefaults) :=
  (claim5_amended true casedBody "x" emptyDB 132 casedDefaults
    ([applyDefaults 132 casedDefaults], applyDefaults 132 casedDefaults, true)
    rfl rfl).1

/-- C6 counterexample: a provider call answered HTTP 200 with the
valid-but-keyless JSON body `{}` appends TWO `APIRequest` rows (the
status-200 row written before the upsert, then the catch-all failure
row), refuting "exactly one RequestLogEntry per provider-reaching
branch"; no `Pokemon` row is written. -/
theorem claim6_counterexample :
    (fetch_pokemon { provider := .httpResponse 200 (some (.obj [])), fileSaveOk := true }
        "ditto" emptyDB).1.requests.length = 2 ∧
    ((fetch_pokemon { provider := .httpResponse 200 (some (.obj [])), fileSaveOk := true }
        "ditto" emptyDB).1.requests.map (fun r => r.success)) = [false, true] ∧
    (fetch_pokemon { provider := .httpResponse 200 (some (.obj [])), fileSaveOk := true }
        "ditto" emptyDB).1.pokemons = [] :=
  ⟨rfl, rfl, rfl⟩

/-- C6 amended: every call appends one or two `APIRequest` rows —
exactly one, except when the write step after the status-200 row
raises: a failed field extraction (missing key, or a value int()
cannot coerce) or an IntegrityError of the unique name constraint
appends a second, failure row; and at most one Entity-Cache upsert is
performed. -/
theorem claim6_amended (w : World) (raw_name : String) (s : DBState) :
    ((fetch_pokemon w raw_name s).1.requests.length = s.requests.length + 1 ∨
      (fetch_pokemon w raw_name s).1.requests.length = s.requests.length + 2) ∧
    (fetch_pokemon w raw_name s).1.pokemons.length ≤ s.pokemons.length + 1 ∧
    ((fetch_pokemon w raw_name s).1.requests.length = s.requests.length + 2 ↔
      ∃ data, w.provider = .httpResponse 200 (some data) ∧
        ((∃ e, extractDefaults data = .error e) ∨
         ∃ id d e, extractDefaults data = .ok (id, d) ∧
           update_or_create s.pokemons id d = .error e)) := by
  obtain ⟨prov, fOk⟩ := w
  unfold fetch_pokemon fetchBody
  cases prov <;> simp [log_error]
  case mk.httpResponse status body =>
    by_cases h2 : status = 200
    · simp only [h2, reduceIte]
      cases body with
      | none => simp [log_error]
      | some data =>
        cases he : extractDefaults data with
        | error e => cases e <;> simp [he, log_error]
        | ok v =>
          obtain ⟨id, d⟩ := v
          simp only [he]
          cases hu : update_or_create s.pokemons id d with
          | error e =>
            cases e <;> simp [he, hu, log_error] <;>
              exact ⟨id, d, ⟨rfl, rfl⟩, _, hu⟩
          | ok u =>
            simp [he, hu]
            exact update_or_create_ok_length s.pokemons id d u hu
    · simp only [h2, reduceIte]
      by_cases h4 : status = 404 <;> simp [h4, h2]

/-- C7 counterexample: on the payload `{"types": [{}]}` the key
`types` is present but its entry lacks the `type` field, so the
`types` accessor raises `KeyError` instead of returning a value,
refuting "returns a value without raising for every payload". -/
theorem claim7_counterexample :
    Pokemon.types (.obj [("types", .arr [.obj []])]) = .error (.keyError "type") :=
  rfl

/-- C7 amended: each derived accessor returns its empty value — never
an error — whenever `raw_data` is falsy or the relevant top-level key
is absent; only a payload whose key is present but malformed can
raise. -/
theorem claim7_amended (raw : JsonVal) (fields : List (String × JsonVal)) :
    (jsonTruthy raw = false →
      Pokemon.types raw = .ok [] ∧ Pokemon.abilities raw = .ok [] ∧
      Pokemon.hidden_abilities raw = .ok [] ∧ Pokemon.base_stats raw = .ok []) ∧
    (fields.any (fun p => p.1 = "types") = false →
      Pokemon.types (.obj fields) = .ok []) ∧
    (fields.any (fun p => p.1 = "abilities") = false →
      Pokemon.abilities (.obj fields) = .ok [] ∧
      Pokemon.hidden_abilities (.obj fields) = .ok []) ∧
    (fields.any (fun p => p.1 = "stats") = false →
      Pokemon.base_stats (.obj fields) = .ok []) := by
  refine ⟨fun h => ?_, fun h => ?_, fun h => ?_, fun h => ?_⟩
  · simp [Pokemon.types, Pokemon.abilities, Pokemon.hidden_abilities,
      Pokemon.abilitiesWith, Pokemon.base_stats, h]
  · by_cases ht : jsonTruthy (.obj fields) = true
    · simp [Pokemon.types, ht, pyContains, h]
    · simp only [Bool.not_eq_true] at ht
      simp [Pokemon.types, ht]
  · by_cases ht : jsonTruthy (.obj fields) = true
    · constructor <;>
        simp [Pokemon.abilities, Pokemon.hidden_abilities, Pokemon.abilitiesWith,
          ht, pyContains, h]
    · simp only [Bool.not_eq_true] at ht
      constructor <;>
        simp [Pokemon.abilities, Pokemon.hidden_abilities, Pokemon.abilitiesWith, ht]
  · by_cases ht : jsonTruthy (.obj fields) = true
    · simp [Pokemon.base_stats, ht, pyContains, h]
    · simp only [Bool.not_eq_true] at ht
      simp [Pokemon.base_stats, ht]

/-- Witness for C7 amended: a falsy payload and a payload without the
`stats` key both yield empty derived values. -/
theorem claim7_amended_witness :
    Pokemon.types JsonVal.null = .ok [] ∧
    Pokemon.base_stats (.obj [("id", .num 1)]) = .ok [] :=
  ⟨((claim7_amended JsonVal.null []).1 rfl).1,
   (claim7_amended JsonVal.null [("id", .num 1)]).2.2.2 rfl⟩

end PokemonApp
